import Mathlib

/-!
# Verification of the module_5 agent core

Shallow embedding of the tool-use control loop, tool registry, action parser
and restricted expression evaluator from `lessons/module_5`
(`examples/react_agent.py`, `examples/research_agent.py`, `tools/calculator.py`).

Conventions of the embedding:
* Python strings are Lean `String`s; slicing, `strip`, `join` and the two
  `re` patterns used by `_parse_action` are modelled character-exactly
  (with `\s` and `\w` taken in their ASCII ranges, which covers every string
  the theorems touch).
* Fallible Python code is modelled with `Except PyErr`; an uncaught exception
  is an `Except.error` escaping the function's boundary.
* The blocking model call of the control loop is abstracted as a pure oracle
  `llm : List Msg → String` over the transcript, per iteration.
* Numeric values of the evaluators are modelled exactly as rationals; the
  host math library (`math.sqrt`, the float constants `pi`, `e`, …, and
  `**` with non-integer exponent) sits behind a `MathOracle` parameter.
  No claim below depends on the oracle's values.
-/

namespace Agent

/-- Python runtime exception kinds relevant to the embedded code. -/
inductive PyErr where
  | valueError (msg : String)
  | zeroDivisionError
  | keyError (key : String)
  | indexError
  | attributeError
  | syntaxError
deriving DecidableEq, Repr

/-- ASCII whitespace: the characters stripped by `str.strip()` and matched by
the regex class `\s` (restricted to the ASCII range). -/
def pyIsSpace (c : Char) : Bool :=
  c = ' ' || c = '\t' || c = '\n' || c = '\r' || c = '\x0b' || c = '\x0c'

/-- The characters of Python's `strip('"\'')` set, and of the regex class `["\']`. -/
def isQuoteChar (c : Char) : Bool := c = '"' || c = '\''

/-- Regex `\w` (ASCII range). -/
def isWordChar (c : Char) : Bool :=
  ('a' ≤ c && c ≤ 'z') || ('A' ≤ c && c ≤ 'Z') || ('0' ≤ c && c ≤ '9') || c = '_'

/-- Regex `.` without DOTALL: any character except newline. -/
def isDotChar (c : Char) : Bool := c ≠ '\n'

/-- `sub` is a prefix of `s`. -/
def listStartsWith : List Char → List Char → Bool
  | [], _ => true
  | _ :: _, [] => false
  | a :: as, b :: bs => a = b && listStartsWith as bs

/-- `sub` occurs somewhere in `s` (Python `sub in s`). -/
def listContains (sub : List Char) : List Char → Bool
  | [] => listStartsWith sub []
  | c :: rest => listStartsWith sub (c :: rest) || listContains sub rest

/-- Remainder of `s` after the last occurrence of the marker `m`
(`none` when there is no occurrence).  For a marker without self-overlap such
as `"ANSWER:"` this is exactly `s.split(m)[-1]` guarded by `m in s`. -/
def lastRest (m : List Char) : List Char → Option (List Char)
  | [] => none
  | c :: rest =>
    match lastRest m rest with
    | some r => some r
    | none =>
      if listStartsWith m (c :: rest) then some ((c :: rest).drop m.length) else none

/-- Drop the characters satisfying `p` from both ends of the list. -/
def stripWhile (p : Char → Bool) (l : List Char) : List Char :=
  ((l.dropWhile p).reverse.dropWhile p).reverse

/-- Python `str.strip()` (defaults to whitespace). -/
def pyStrip (s : String) : String := String.mk (stripWhile pyIsSpace s.data)

/-- Python `str.strip('"\'')`. -/
def stripQuotes (s : String) : String := String.mk (stripWhile isQuoteChar s.data)

/-- Python slice `s[:n]` (first `n` characters). -/
def pyTake (n : Nat) (s : String) : String := String.mk (s.data.take n)

/-- Python `sep.join(parts)`. -/
def pyJoin (sep : String) : List String → String
  | [] => ""
  | [x] => x
  | x :: y :: t => x ++ sep ++ pyJoin sep (y :: t)

/-- `Option.orElse`, written out so that closed terms reduce predictably. -/
def orE {α : Type} (a : Option α) (b : Unit → Option α) : Option α :=
  match a with
  | some x => some x
  | none => b ()

/-!
Backtracking combinators for the two concrete `re` patterns of
`_parse_action`.  Each combinator consumes from the remaining character list
and passes the rest to a continuation `k`; greedy pieces try the longest
consumption first and backtrack on failure of the continuation, lazy pieces
try the shortest first.  This is exactly the exploration order of Python's
backtracking engine for these patterns.
-/

/-- Greedy `p*` followed by `k`. -/
def starGreedy {α : Type} (p : Char → Bool) (k : List Char → Option α) :
    List Char → Option α
  | [] => k []
  | c :: rest =>
    if p c then orE (starGreedy p k rest) (fun _ => k (c :: rest)) else k (c :: rest)

/-- Greedy capturing `(p*)` followed by `k` (which receives the captured run). -/
def starGreedyCap {α : Type} (p : Char → Bool)
    (k : List Char → List Char → Option α) :
    List Char → List Char → Option α
  | acc, [] => k acc []
  | acc, c :: rest =>
    if p c then orE (starGreedyCap p k (acc ++ [c]) rest) (fun _ => k acc (c :: rest))
    else k acc (c :: rest)

/-- Greedy capturing `(p+)` followed by `k`. -/
def plusGreedyCap {α : Type} (p : Char → Bool)
    (k : List Char → List Char → Option α) : List Char → Option α
  | [] => none
  | c :: rest => if p c then starGreedyCap p k [c] rest else none

/-- Lazy capturing `(p+?)` followed by `k`. -/
def plusLazyCap {α : Type} (p : Char → Bool)
    (k : List Char → List Char → Option α) :
    List Char → List Char → Option α
  | _, [] => none
  | acc, c :: rest =>
    if p c then orE (k (acc ++ [c]) rest) (fun _ => plusLazyCap p k (acc ++ [c]) rest)
    else none

/-- Greedy `p?` followed by `k`. -/
def optChar {α : Type} (p : Char → Bool) (k : List Char → Option α) :
    List Char → Option α
  | [] => k []
  | c :: rest => if p c then orE (k rest) (fun _ => k (c :: rest)) else k (c :: rest)

/-- A literal character followed by `k`. -/
def litChar {α : Type} (c : Char) (k : List Char → Option α) :
    List Char → Option α
  | [] => none
  | x :: rest => if x = c then k rest else none

def actionMarker : List Char := "ACTION:".data

def answerMarker : List Char := "ANSWER:".data

/-- Attempt of `ACTION:\s*(\w+)\s*\(\s*["\']([^"\']*)["\']?\s*\)` anchored at the
start of `s`; returns the two captured groups. -/
def matchP1At (s : List Char) : Option (String × String) :=
  if listStartsWith actionMarker s then
    starGreedy pyIsSpace (fun s1 =>
      plusGreedyCap isWordChar (fun name s2 =>
        starGreedy pyIsSpace (fun s3 =>
          litChar '(' (fun s4 =>
            starGreedy pyIsSpace (fun s5 =>
              match s5 with
              | [] => none
              | q :: s6 =>
                if isQuoteChar q then
                  starGreedyCap (fun c => !(isQuoteChar c)) (fun arg s7 =>
                    optChar isQuoteChar (fun s8 =>
                      starGreedy pyIsSpace (fun s9 =>
                        litChar ')'
                          (fun _ => some (String.mk name, String.mk arg)) s9) s8) s7)
                    [] s6
                else none) s4) s3) s2) s1) (s.drop actionMarker.length)
  else none

/-- Attempt of `ACTION:\s*(\w+)\s*\(\s*(.+?)\s*\)` anchored at the start of `s`. -/
def matchP2At (s : List Char) : Option (String × String) :=
  if listStartsWith actionMarker s then
    starGreedy pyIsSpace (fun s1 =>
      plusGreedyCap isWordChar (fun name s2 =>
        starGreedy pyIsSpace (fun s3 =>
          litChar '(' (fun s4 =>
            starGreedy pyIsSpace (fun s5 =>
              plusLazyCap isDotChar (fun arg s6 =>
                starGreedy pyIsSpace (fun s7 =>
                  litChar ')'
                    (fun _ => some (String.mk name, String.mk arg)) s7) s6)
                [] s5) s4) s3) s2) s1) (s.drop actionMarker.length)
  else none

/-- `re.search`: try the matcher at every position, leftmost match wins. -/
def reSearch {α : Type} (m : List Char → Option α) : List Char → Option α
  | [] => m []
  | c :: rest => orE (m (c :: rest)) (fun _ => reSearch m rest)

/-- A parsed `(tool, argument)` pair. -/
structure ActionRequest where
  tool : String
  arg : String
deriving DecidableEq, Repr

/-- `ReActAgent._parse_action` / `ResearchAgent._parse_action` (the two files
contain the identical function): try the quoted-argument pattern over the whole
response first, then the bare pattern; strip quote characters from the captured
argument. -/
def _parse_action (response : String) : Option ActionRequest :=
  match reSearch matchP1At response.data with
  | some (t, a) => some ⟨t, stripQuotes a⟩
  | none =>
    match reSearch matchP2At response.data with
    | some (t, a) => some ⟨t, stripQuotes a⟩
    | none => none

/-- `ReActAgent._extract_answer` / `ResearchAgent._extract_answer`:
`if "ANSWER:" in response: return response.split("ANSWER:")[-1].strip()`.
Since `"ANSWER:"` has no self-overlap, `split("ANSWER:")[-1]` is the text after
the last occurrence of the marker. -/
def _extract_answer (response : String) : Option String :=
  match lastRest answerMarker response.data with
  | some rest => some (pyStrip (String.mk rest))
  | none => none

/-- Truthiness of the extracted answer as used by `if answer:` in the loop
(`None` and the empty string are falsy). -/
def answerTruthy (response : String) : Bool :=
  match _extract_answer response with
  | some a => a != ""
  | none => false

/-- The answer value used on the terminal branch (only read when truthy). -/
def answerValue (response : String) : String := (_extract_answer response).getD ""

/-!
## Tool registry (`react_agent.py` and `research_agent.py`)

Both files define the identical `Tool` dataclass and, up to the not-found
string of `execute`, the identical `ToolKit` class.  A tool's handler is
modelled as `String → Except String String`: `ok` is the `str(...)` of the
returned value, `error` the message of an exception raised inside the handler.
-/

structure Tool where
  name : String
  description : String
  func : String → Except String String
  parameters : List String  -- the keys of the `parameters` dict, in insertion order

/-- `Tool.execute`: `try: return str(self.func(**kwargs)) except Exception as e:
return f"Ошибка: {e}"`. -/
def Tool.execute (t : Tool) (arg : String) : String :=
  match t.func arg with
  | .ok v => v
  | .error e => "Ошибка: " ++ e

structure ToolKit where
  tools : List Tool

/-- `ToolKit.register`: `self.tools[tool.name] = tool` — a dict insert, which
overwrites in place if the name is present and appends otherwise. -/
def ToolKit.register (tk : ToolKit) (t : Tool) : ToolKit :=
  if tk.tools.any (fun x => x.name == t.name) then
    ⟨tk.tools.map (fun x => if x.name == t.name then t else x)⟩
  else ⟨tk.tools ++ [t]⟩

/-- Dict lookup `self.tools[name]` (names are unique in any registry built
through `register`). -/
def ToolKit.find? (tk : ToolKit) (name : String) : Option Tool :=
  tk.tools.find? (fun t => t.name == name)

/-- The f-string of one `describe` line:
`f"• {t.name}({params}): {t.description}"` with
`params = ", ".join(f'"{k}"' for k in t.parameters.keys())`. -/
def toolLine (t : Tool) : String :=
  "• " ++ t.name ++ "(" ++
    pyJoin ", " (t.parameters.map (fun k => "\"" ++ k ++ "\"")) ++ "): " ++
    t.description

/-- `ToolKit.describe` (identical in both files): build the list of lines in
registration order, then join with newlines. -/
def ToolKit.describe (tk : ToolKit) : String :=
  pyJoin "\n" (tk.tools.foldl (fun lines t => lines ++ [toolLine t]) [])

namespace ReAct

/-- `ToolKit.execute` of `react_agent.py`: unknown name → not-found string that
lists the available tool names; known name → bind the argument to the first
declared parameter name (`list(tool.parameters.keys())[0]` raises `IndexError`
when the dict is empty) and run the tool. -/
def toolkitExecute (tk : ToolKit) (name arg : String) : Except PyErr String :=
  match tk.find? name with
  | none =>
    .ok ("Инструмент '" ++ name ++ "' не найден. Доступны: " ++
      pyJoin ", " (tk.tools.map Tool.name))
  | some t =>
    match t.parameters with
    | [] => .error .indexError
    | _ :: _ => .ok (t.execute arg)

end ReAct

namespace Research

/-- `ToolKit.execute` of `research_agent.py`: the not-found string does not
list the available tools; the rest is as in `react_agent.py`. -/
def toolkitExecute (tk : ToolKit) (name arg : String) : Except PyErr String :=
  match tk.find? name with
  | none => .ok ("Инструмент '" ++ name ++ "' не найден")
  | some t =>
    match t.parameters with
    | [] => .error .indexError
    | _ :: _ => .ok (t.execute arg)

end Research

/-!
## Control loops
-/

structure Msg where
  role : String
  content : String
deriving DecidableEq, Repr

structure IterRec where
  iteration : Nat
  tool : String
  arg : String
  result : String
deriving DecidableEq, Repr

structure RunResult where
  answer : String
  iterations : Nat
  actions : List IterRec
  success : Bool
deriving DecidableEq, Repr

namespace ReAct

/-- `ReActAgent.SYSTEM_PROMPT.format(tools=...)`. -/
def SYSTEM_PROMPT (tools : String) : String :=
  "Ты — агент, решающий задачи через рассуждение и действия.\n\n## Формат ответа\n\nСледуй СТРОГО этому формату:\n\nTHOUGHT: (твои рассуждения о следующем шаге)\nACTION: tool_name(\"argument\")\n\nЖди OBSERVATION от системы, затем продолжай.\n\nКогда готов дать финальный ответ:\nTHOUGHT: (финальные рассуждения)\nANSWER: (полный ответ на вопрос)\n\n## Доступные инструменты\n\n" ++
  tools ++
  "\n\n## Правила\n\n1. ВСЕГДА начинай с THOUGHT\n2. После THOUGHT пиши ACTION\n3. НЕ выдумывай OBSERVATION\n4. Используй инструменты для проверки фактов\n5. Отвечай на русском\n\n## Пример\n\nUser: Сколько будет 15% от 200?\n\nTHOUGHT: Нужно вычислить 15% от 200. Это 200 * 0.15.\nACTION: calculator(\"200 * 0.15\")\n\nOBSERVATION: 30.0\n\nTHOUGHT: Результат получен.\nANSWER: 15% от 200 равно 30.\n"

/-- The corrective user message of the no-action branch. -/
def nudge : Msg :=
  ⟨"user", "Укажи ACTION с инструментом или ANSWER с финальным ответом."⟩

/-- The failure-sentinel answer returned on iteration exhaustion. -/
def sentinel : String := "Не удалось найти ответ"

/-- The body of `ReActAgent.run`'s `for iteration in range(1, max_iterations+1)`
loop.  `iter` is the next iteration number, `fuel` the number of iterations
left (`fuel = maxIter - iter + 1` along real executions); exhaustion returns
the sentinel result with `iterations = max_iterations`. -/
def runAux (tk : ToolKit) (llm : List Msg → String) (maxIter : Nat) :
    Nat → Nat → List Msg → List IterRec → Except PyErr RunResult
  | _, 0, _, log => .ok ⟨sentinel, maxIter, log, false⟩
  | iter, fuel + 1, msgs, log =>
    let response := llm msgs
    if answerTruthy response then
      .ok ⟨answerValue response, iter, log, true⟩
    else
      match _parse_action response with
      | some a =>
        match toolkitExecute tk a.tool a.arg with
        | .error e => .error e
        | .ok obs =>
          runAux tk llm maxIter (iter + 1) fuel
            (msgs ++ [⟨"assistant", response⟩, ⟨"user", "OBSERVATION: " ++ obs⟩])
            (log ++ [⟨iter, a.tool, a.arg, pyTake 500 obs⟩])
      | none =>
        runAux tk llm maxIter (iter + 1) fuel
          (msgs ++ [⟨"assistant", response⟩, nudge]) log

/-- `ReActAgent.run` with the model call abstracted as the oracle `llm`. -/
def run (tk : ToolKit) (llm : List Msg → String) (maxIter : Nat) (task : String) :
    Except PyErr RunResult :=
  runAux tk llm maxIter 1 maxIter
    [⟨"system", SYSTEM_PROMPT (ToolKit.describe tk)⟩, ⟨"user", task⟩] []

end ReAct

namespace Research

structure RIterRec where
  iteration : Nat
  tool : String
  query : String
  result : String
deriving DecidableEq, Repr

/-- `self.research_log`. -/
structure RLog where
  queries : List String
  findings : List String
  sources : List String
deriving DecidableEq, Repr

structure RRunResult where
  topic : String
  answer : String
  iterations : Nat
  actions : List RIterRec
  research_log : RLog
  success : Bool
deriving DecidableEq, Repr

/-- `ResearchAgent.SYSTEM_PROMPT.format(tools=...)`. -/
def SYSTEM_PROMPT (tools : String) : String :=
  "Ты — Research Agent, специализирующийся на исследованиях.\n\n## Твоя задача\n\nПроводить исследования: собирать информацию из разных источников,\nанализировать и формировать структурированный ответ.\n\n## Формат работы\n\nTHOUGHT: (что нужно исследовать дальше)\nACTION: tool_name(\"query\")\n\nПовторяй, пока не соберёшь достаточно информации.\n\nTHOUGHT: (анализ собранных данных)\nANSWER:\n## Результаты исследования\n\n### Краткий ответ\n(1-2 предложения)\n\n### Детали\n(подробная информация по пунктам)\n\n### Источники\n(какие запросы были использованы)\n\n## Доступные инструменты\n\n" ++
  tools ++
  "\n\n## Правила исследования\n\n1. Собирай информацию из нескольких источников\n2. Проверяй факты перед включением в ответ\n3. Если информация противоречива — укажи это\n4. Структурируй ответ\n5. Указывай источники\n"

/-- The loop body of `ResearchAgent.research`; the dispatch branch also
appends to `research_log` (queries / findings / sources). -/
def researchAux (tk : ToolKit) (llm : List Msg → String) (maxIter : Nat)
    (topic : String) :
    Nat → Nat → List Msg → List RIterRec → RLog → Except PyErr RRunResult
  | _, 0, _, log, rlog => .ok ⟨topic, "Исследование не завершено", maxIter, log, rlog, false⟩
  | iter, fuel + 1, msgs, log, rlog =>
    let response := llm msgs
    if answerTruthy response then
      .ok ⟨topic, answerValue response, iter, log, rlog, true⟩
    else
      match _parse_action response with
      | some a =>
        match toolkitExecute tk a.tool a.arg with
        | .error e => .error e
        | .ok obs =>
          researchAux tk llm maxIter topic (iter + 1) fuel
            (msgs ++ [⟨"assistant", response⟩, ⟨"user", "OBSERVATION: " ++ obs⟩])
            (log ++ [⟨iter, a.tool, a.arg, pyTake 500 obs⟩])
            ⟨rlog.queries ++ [a.arg], rlog.findings ++ [pyTake 500 obs],
             rlog.sources ++ [a.tool ++ "(" ++ a.arg ++ ")"]⟩
      | none =>
        researchAux tk llm maxIter topic (iter + 1) fuel
          (msgs ++ [⟨"assistant", response⟩,
            ⟨"user", "Продолжай исследование (ACTION) или дай ANSWER."⟩]) log rlog

/-- `ResearchAgent.research` (the `research_log` is reset at entry). -/
def research (tk : ToolKit) (llm : List Msg → String) (maxIter : Nat)
    (topic : String) : Except PyErr RRunResult :=
  researchAux tk llm maxIter topic 1 maxIter
    [⟨"system", SYSTEM_PROMPT (ToolKit.describe tk)⟩,
     ⟨"user", "Проведи исследование: " ++ topic⟩] [] ⟨[], [], []⟩

end Research

/-!
## Expression evaluators

`tools/calculator.py` and the inline copy in `react_agent.py` /
`research_agent.py` both interpret the AST produced by
`ast.parse(expression, mode='eval')`.  The relevant node shapes are embedded
as `PyExpr`; the host parser itself is a module boundary, so each theorem
about an evaluator receives the parse result of its concrete input
explicitly.  Numeric values are modelled exactly as rationals; the host math
library is a `MathOracle` parameter.
-/

/-- The `ast` operator classes appearing under `ast.BinOp`. -/
inductive BOp where
  | add | sub | mult | div | floorDiv | mod | pow
  | otherOp (clsName : String)  -- any operator class outside the embedded set
deriving DecidableEq, Repr

/-- The `ast` operator classes appearing under `ast.UnaryOp`. -/
inductive UOp where
  | usub | uadd
  | otherUOp (clsName : String)
deriving DecidableEq, Repr

def BOp.clsName : BOp → String
  | .add => "Add"
  | .sub => "Sub"
  | .mult => "Mult"
  | .div => "Div"
  | .floorDiv => "FloorDiv"
  | .mod => "Mod"
  | .pow => "Pow"
  | .otherOp s => s

def UOp.clsName : UOp → String
  | .usub => "USub"
  | .uadd => "UAdd"
  | .otherUOp s => s

/-- The AST node shapes the evaluators distinguish. -/
inductive PyExpr where
  | num (v : Rat)                               -- ast.Num / numeric ast.Constant
  | name (id : String)                          -- ast.Name
  | binOp (op : BOp) (l r : PyExpr)             -- ast.BinOp
  | unaryOp (op : UOp) (e : PyExpr)             -- ast.UnaryOp
  | call (fname : String) (args : List PyExpr)  -- ast.Call whose func is an ast.Name
  | callComplex (args : List PyExpr)            -- ast.Call with a non-Name func
  | other (clsName : String)                    -- any other node type

/-- Host numeric/math facilities at the evaluators' boundary: the float values
of the `math` constants, the `math` functions of the whitelists, and `**`
with a non-integer exponent.  No claim depends on the oracle's values. -/
structure MathOracle where
  const : String → Rat
  func : String → List Rat → Except PyErr Rat
  powAny : Rat → Rat → Except PyErr Rat

/-- Python `**` on numbers: exact for integer exponents (`0 ** n` with `n < 0`
raises `ZeroDivisionError`), delegated to the host for non-integer exponents. -/
def pyPow (O : MathOracle) (x y : Rat) : Except PyErr Rat :=
  if y.den = 1 then
    if 0 ≤ y.num then .ok (x ^ y.num.toNat)
    else if x = 0 then .error .zeroDivisionError
    else .ok (x ^ y.num)
  else O.powAny x y

/-- The shared semantics of the `operator` module entries bound in the
`OPERATORS` dicts (`truediv`/`floordiv`/`mod` raise `ZeroDivisionError` on a
zero divisor).  `otherOp` is unreachable: both evaluators guard the lookup. -/
def binOpSem (O : MathOracle) : BOp → Rat → Rat → Except PyErr Rat
  | .add, x, y => .ok (x + y)
  | .sub, x, y => .ok (x - y)
  | .mult, x, y => .ok (x * y)
  | .div, x, y => if y = 0 then .error .zeroDivisionError else .ok (x / y)
  | .floorDiv, x, y =>
    if y = 0 then .error .zeroDivisionError else .ok ((⌊x / y⌋ : Int) : Rat)
  | .mod, x, y =>
    if y = 0 then .error .zeroDivisionError
    else .ok (x - y * ((⌊x / y⌋ : Int) : Rat))
  | .pow, x, y => pyPow O x y
  | .otherOp s, _, _ => .error (.keyError s)

/-- `operator.neg` / `operator.pos`; `otherUOp` is unreachable under the guards. -/
def unOpSem : UOp → Rat → Except PyErr Rat
  | .usub, x => .ok (-x)
  | .uadd, x => .ok x
  | .otherUOp s, _ => .error (.keyError s)

namespace ReAct

/-- Keys of the inline `OPERATORS` dict of `react_agent.py`'s
`safe_calculator` (`Add, Sub, Mult, Div, Pow, USub`). -/
def binOpKey : BOp → Bool
  | .add | .sub | .mult | .div | .pow => true
  | _ => false

def CONSTANTS_keys : List String := ["pi", "e"]

def FUNCTIONS_keys : List String := ["sqrt", "abs", "round"]

mutual

/-- The inner `_eval` of `react_agent.py` / `research_agent.py`
`safe_calculator`.  `ast.Name` resolves through `CONSTANTS.get(node.id, 0)`,
so an unknown identifier silently becomes `0`.  For `BinOp`/`UnaryOp`/`Call`,
Python evaluates the callee `OPERATORS[type(node.op)]` resp.
`FUNCTIONS[node.func.id]` before the operands, so a missing key raises
`KeyError` first; a non-`Name` callee raises `AttributeError` at
`node.func.id`. -/
def _eval (O : MathOracle) : PyExpr → Except PyErr Rat
  | .num v => .ok v
  | .name id => .ok (if CONSTANTS_keys.contains id then O.const id else 0)
  | .binOp op l r =>
    if binOpKey op then do
      let x ← _eval O l
      let y ← _eval O r
      binOpSem O op x y
    else .error (.keyError op.clsName)
  | .unaryOp op e =>
    if op = .usub then do
      let x ← _eval O e
      unOpSem op x
    else .error (.keyError op.clsName)
  | .call f args =>
    if FUNCTIONS_keys.contains f then do
      let vs ← _evalArgs O args
      O.func f vs
    else .error (.keyError f)
  | .callComplex _ => .error .attributeError
  | .other t => .error (.valueError ("Unsupported: " ++ t))

/-- The argument list comprehension `[_eval(a) for a in node.args]`
(left to right, first exception propagates). -/
def _evalArgs (O : MathOracle) : List PyExpr → Except PyErr (List Rat)
  | [] => .ok []
  | a :: as => do
    let v ← _eval O a
    let vs ← _evalArgs O as
    .ok (v :: vs)

end

/-- `safe_calculator` of `react_agent.py` / `research_agent.py`:
`float(_eval(ast.parse(expression, mode='eval').body))` — no empty-input
check and no exception handling, so a `SyntaxError` of the host parser and
every exception of `_eval` propagate to the caller.  The `float(...)`
coercion is the identity on the modelled (exact rational) domain. -/
def safe_calculator (O : MathOracle) (parsed : Except String PyExpr) :
    Except PyErr Rat :=
  match parsed with
  | .error _ => .error .syntaxError
  | .ok tree => _eval O tree

end ReAct

namespace Calc

def CONSTANTS_keys : List String := ["pi", "e", "tau", "inf"]

def FUNCTIONS_keys : List String :=
  ["sqrt", "sin", "cos", "tan", "asin", "acos", "atan", "log", "log10",
   "log2", "exp", "abs", "round", "floor", "ceil", "factorial", "gcd"]

/-- Keys of `OPERATORS` in `tools/calculator.py`. -/
def binOpKey : BOp → Bool
  | .otherOp _ => false
  | _ => true

/-- Keys of `OPERATORS` restricted to unary operator classes. -/
def unOpKey : UOp → Bool
  | .usub | .uadd => true
  | _ => false

mutual

/-- `_eval_node` of `tools/calculator.py`.  Unknown constants and functions,
unsupported operators, non-`Name` callees and unsupported node types raise
`ValueError` with the messages of the source; for `BinOp`/`UnaryOp` the
operands are evaluated before the `OPERATORS.get` lookup, and for `Call` the
whitelist check precedes argument evaluation. -/
def _eval_node (O : MathOracle) : PyExpr → Except PyErr Rat
  | .num v => .ok v
  | .name id =>
    if CONSTANTS_keys.contains id then .ok (O.const id)
    else .error (.valueError ("Неизвестная константа: " ++ id))
  | .binOp op l r => do
    let x ← _eval_node O l
    let y ← _eval_node O r
    if binOpKey op then binOpSem O op x y
    else .error (.valueError ("Неподдерживаемый оператор: " ++ op.clsName))
  | .unaryOp op e => do
    let x ← _eval_node O e
    if unOpKey op then unOpSem op x
    else .error (.valueError ("Неподдерживаемый оператор: " ++ op.clsName))
  | .call f args =>
    if FUNCTIONS_keys.contains f then do
      let vs ← _eval_node_args O args
      O.func f vs
    else
      .error (.valueError ("Неизвестная функция: " ++ f ++ ". Доступны: " ++
        pyJoin ", " FUNCTIONS_keys))
  | .callComplex _ => .error (.valueError "Поддерживаются только простые вызовы функций")
  | .other t => .error (.valueError ("Неподдерживаемый тип узла: " ++ t))

/-- `[_eval_node(arg) for arg in node.args]`. -/
def _eval_node_args (O : MathOracle) : List PyExpr → Except PyErr (List Rat)
  | [] => .ok []
  | a :: as => do
    let v ← _eval_node O a
    let vs ← _eval_node_args O as
    .ok (v :: vs)

end

/-- `str(e)` of the embedded exceptions, as interpolated into the
`f"Ошибка вычисления ..."` wrapper. -/
def errStr : PyErr → String
  | .valueError m => m
  | .zeroDivisionError => "division by zero"
  | .keyError k => "'" ++ k ++ "'"
  | .indexError => "list index out of range"
  | .attributeError => "attribute error"
  | .syntaxError => "invalid syntax"

/-- `safe_calculator` of `tools/calculator.py`: reject empty/whitespace-only
input, strip the expression, parse (`parsed` carries the host parser's result
for the stripped expression, `.error msg` for a `SyntaxError`), evaluate, and
re-wrap exceptions: `SyntaxError` and `ZeroDivisionError` get dedicated
`ValueError`s, every other exception is wrapped as
`ValueError(f"Ошибка вычисления '{expression}': {e}")`. -/
def safe_calculator (O : MathOracle) (expression : String)
    (parsed : Except String PyExpr) : Except PyErr Rat :=
  if expression = "" || pyStrip expression = "" then
    .error (.valueError "Выражение не может быть пустым")
  else
    let expr := pyStrip expression
    match parsed with
    | .error e =>
      .error (.valueError ("Синтаксическая ошибка в выражении '" ++ expr ++ "': " ++ e))
    | .ok tree =>
      match _eval_node O tree with
      | .ok v => .ok v  -- float(result): identity on the modelled domain
      | .error .zeroDivisionError => .error (.valueError "Деление на ноль")
      | .error e =>
        .error (.valueError ("Ошибка вычисления '" ++ expr ++ "': " ++ errStr e))

end Calc

example : _parse_action "ACTION: calculator(\"2+2\")" = some ⟨"calculator", "2+2"⟩ := by
  decide

example : _parse_action "ACTION: calculator((1+2)*3)" = some ⟨"calculator", "(1+2"⟩ := by
  decide

example : _extract_answer "THOUGHT: x\nANSWER: 42" = some "42" := by decide

example : _extract_answer "ANSWER:   " = some "" := by decide

example : _parse_action "no action here" = none := by decide

/-!
## Helper lemmas
-/

theorem dropWhile_eq_nil_of_all {p : Char → Bool} {l : List Char}
    (h : ∀ c ∈ l, p c = true) : l.dropWhile p = [] := by
  simp only [List.dropWhile_eq_nil_iff]
  exact h

theorem stripWhile_eq_nil_of_all {p : Char → Bool} {l : List Char}
    (h : ∀ c ∈ l, p c = true) : stripWhile p l = [] := by
  unfold stripWhile
  rw [dropWhile_eq_nil_of_all h]
  rfl

theorem listStartsWith_append (a b : List Char) :
    listStartsWith a (a ++ b) = true := by
  induction a with
  | nil => rfl
  | cons c cs ih => simp [listStartsWith, ih]

theorem listContains_of_startsWith {sub s : List Char}
    (h : listStartsWith sub s = true) : listContains sub s = true := by
  cases s with
  | nil => exact h
  | cons c rest => simp [listContains, h]

theorem listContains_append_right {sub : List Char} (a : List Char)
    {b : List Char} (h : listContains sub b = true) :
    listContains sub (a ++ b) = true := by
  induction a with
  | nil => exact h
  | cons c cs ih => simp [listContains, ih]

theorem listContains_mem_pyJoin {x : String} {l : List String} (sep : String)
    (h : x ∈ l) :
    listContains x.data (pyJoin sep l).data = true := by
  induction l with
  | nil => cases h
  | cons y t ih =>
    cases h with
    | head =>
      cases t with
      | nil =>
        exact listContains_of_startsWith
          (by simpa using listStartsWith_append x.data [])
      | cons z zs =>
        have : (pyJoin sep (x :: z :: zs)).data
            = x.data ++ (sep ++ pyJoin sep (z :: zs)).data := by
          simp [pyJoin, String.data_append, List.append_assoc]
        rw [this]
        exact listContains_of_startsWith (listStartsWith_append _ _)
    | tail _ hmem =>
      cases t with
      | nil => cases hmem
      | cons z zs =>
        have : (pyJoin sep (y :: z :: zs)).data
            = (y ++ sep).data ++ (pyJoin sep (z :: zs)).data := by
          simp [pyJoin, String.data_append, List.append_assoc]
        rw [this]
        exact listContains_append_right _ (ih hmem)

theorem describe_lines (ts : List Tool) (init : List String) :
    ts.foldl (fun lines t => lines ++ [toolLine t]) init = init ++ ts.map toolLine := by
  induction ts generalizing init with
  | nil => simp
  | cons t ts ih => simp [List.foldl_cons, ih]

/-!
## Claims
-/

/-- A concrete stand-in for the host math library, used only to instantiate
oracle-parametrised theorems at a closed point. -/
def defaultOracle : MathOracle :=
  ⟨fun _ => 0, fun _ _ => .ok 0, fun _ _ => .ok 0⟩

/-- **C1** (code_bug): the spec demands that an unknown identifier or function
is a hard error, never silently zero, and `tools/calculator.py` implements
exactly that; but the inline `safe_calculator` of `react_agent.py` /
`research_agent.py` evaluates `CONSTANTS.get(node.id, 0)`, so
`evaluate("undefined_name")` silently returns `0`, and its unknown-function
path escapes with a raw `KeyError`.  The four conjuncts evaluate both
evaluators at the two failing inputs (whose `ast.parse` results are the
spelled-out `PyExpr` nodes). -/
theorem c1_unknown_identifier_divergence (O : MathOracle) :
    ReAct.safe_calculator O (.ok (.name "undefined_name")) = .ok 0
    ∧ ReAct.safe_calculator O (.ok (.call "unknown_func" [.num 1]))
        = .error (.keyError "unknown_func")
    ∧ Calc.safe_calculator O "undefined_name" (.ok (.name "undefined_name"))
        = .error (.valueError
            "Ошибка вычисления 'undefined_name': Неизвестная константа: undefined_name")
    ∧ Calc.safe_calculator O "unknown_func(1)" (.ok (.call "unknown_func" [.num 1]))
        = .error (.valueError
            ("Ошибка вычисления 'unknown_func(1)': Неизвестная функция: unknown_func. Доступны: " ++
              pyJoin ", " Calc.FUNCTIONS_keys)) := by
  exact ⟨rfl, rfl, rfl, rfl⟩

/-- **C7** (code_bug): `tools/calculator.py` converts a division by zero into
`ValueError("Деление на ноль")`, but the inline `safe_calculator` of
`react_agent.py` lets the host `ZeroDivisionError` escape uncaught. -/
theorem c7_division_by_zero_divergence (O : MathOracle) :
    ReAct.safe_calculator O (.ok (.binOp .div (.num 10) (.num 0)))
        = .error .zeroDivisionError
    ∧ Calc.safe_calculator O "10 / 0" (.ok (.binOp .div (.num 10) (.num 0)))
        = .error (.valueError "Деление на ноль") := by
  exact ⟨rfl, rfl⟩

/-- **C5** (counterexample): for the bare-form call
`ACTION: calculator((1+2)*3)` the lazy `(.+?)` of the second pattern stops at
the *first* close-parenthesis, capturing `(1+2` — not the matching one, which
would capture `(1+2)*3` as the claim states. -/
theorem c5_counterexample :
    _parse_action "ACTION: calculator((1+2)*3)" = some ⟨"calculator", "(1+2"⟩
    ∧ ("(1+2" : String) ≠ "(1+2)*3" := by
  exact ⟨by decide, by decide⟩

/-- **C5** (amended): the parser tries the quoted-argument pattern over the
whole response first, then the bare pattern, stripping quote characters from
the capture; the quoted round-trip `calculator("2+2") ↦ (calculator, 2+2)`
holds, a quoted match anywhere beats a bare match occurring earlier in the
text, and a bare-form argument is captured lazily only up to the first
close-parenthesis. -/
theorem c5_action_parser_amended :
    _parse_action "ACTION: calculator(\"2+2\")" = some ⟨"calculator", "2+2"⟩
    ∧ _parse_action "ACTION: calc(2+2)" = some ⟨"calc", "2+2"⟩
    ∧ _parse_action "ACTION: alpha(raw) ACTION: beta(\"q\")" = some ⟨"beta", "q"⟩
    ∧ _parse_action "ACTION: calculator((1+2)*3)" = some ⟨"calculator", "(1+2"⟩ := by
  exact ⟨by decide, by decide, by decide, by decide⟩

/-- **C10** (confirmed): dispatching a *registered* tool whose declared
parameters dict is empty raises an uncaught `IndexError` at
`list(tool.parameters.keys())[0]` (in both agents), while a tool with at
least one declared parameter always yields a string result. -/
theorem c10_empty_parameters_index_error (tk : ToolKit) (name arg : String)
    (t : Tool) (hfind : tk.find? name = some t) :
    (t.parameters = [] →
      ReAct.toolkitExecute tk name arg = .error .indexError
      ∧ Research.toolkitExecute tk name arg = .error .indexError)
    ∧ (∀ p ps, t.parameters = p :: ps →
      ReAct.toolkitExecute tk name arg = .ok (t.execute arg)
      ∧ Research.toolkitExecute tk name arg = .ok (t.execute arg)) := by
  constructor
  · intro hempty
    constructor
    · simp [ReAct.toolkitExecute, hfind, hempty]
    · simp [Research.toolkitExecute, hfind, hempty]
  · intro p ps hcons
    constructor
    · simp [ReAct.toolkitExecute, hfind, hcons]
    · simp [Research.toolkitExecute, hfind, hcons]

/-- A registered tool with an empty parameters dict (as a registry literal). -/
def brokenToolKit : ToolKit := ⟨[⟨"broken", "без параметров", fun s => .ok s, []⟩]⟩

/-- Witness for C10 at a concrete registry. -/
theorem c10_empty_parameters_index_error_witness :
    ReAct.toolkitExecute brokenToolKit "broken" "x" = .error .indexError
    ∧ Research.toolkitExecute brokenToolKit "broken" "x" = .error .indexError :=
  (c10_empty_parameters_index_error brokenToolKit "broken" "x"
    ⟨"broken", "без параметров", fun s => .ok s, []⟩ rfl).1 rfl

/-- A one-tool registry as built by `main()` (handler irrelevant to the claims). -/
def calcToolKit : ToolKit :=
  ⟨[⟨"calculator", "Вычисления", fun s => .ok s, ["expression"]⟩]⟩

/-- **C6** (counterexample): `research_agent.py`'s `ToolKit.execute` returns
`"Инструмент '{name}' не найден"` for an unknown name — a not-found string
that does *not* list the available tool names (here `calculator` does not
occur in it), contrary to the claim's "lists the available tool names". -/
theorem c6_counterexample :
    Research.toolkitExecute calcToolKit "foo" "1+1"
      = .ok "Инструмент 'foo' не найден"
    ∧ listContains "calculator".data "Инструмент 'foo' не найден".data = false := by
  exact ⟨rfl, by decide⟩

/-- **C6** (amended): for every unknown tool name and every argument, both
dispatchers return a not-found string and never raise; the `react_agent.py`
one lists all registered tool names (each occurs in the returned string), the
`research_agent.py` one returns the bare not-found string without the list. -/
theorem c6_not_found_dispatch (tk : ToolKit) (name arg : String)
    (h : tk.find? name = none) :
    ReAct.toolkitExecute tk name arg
      = .ok ("Инструмент '" ++ name ++ "' не найден. Доступны: " ++
          pyJoin ", " (tk.tools.map Tool.name))
    ∧ (∀ t ∈ tk.tools,
        listContains t.name.data
          ("Инструмент '" ++ name ++ "' не найден. Доступны: " ++
            pyJoin ", " (tk.tools.map Tool.name)).data = true)
    ∧ Research.toolkitExecute tk name arg
      = .ok ("Инструмент '" ++ name ++ "' не найден") := by
  refine ⟨by simp [ReAct.toolkitExecute, h], ?_, by simp [Research.toolkitExecute, h]⟩
  intro t ht
  rw [String.data_append]
  exact listContains_append_right _
    (listContains_mem_pyJoin ", " (List.mem_map_of_mem Tool.name ht))

/-- Witness for C6 at a concrete registry and unknown name. -/
theorem c6_not_found_dispatch_witness :
    ReAct.toolkitExecute calcToolKit "foo" "1+1"
      = .ok ("Инструмент '" ++ "foo" ++ "' не найден. Доступны: " ++
          pyJoin ", " (calcToolKit.tools.map Tool.name))
    ∧ Research.toolkitExecute calcToolKit "foo" "1+1"
      = .ok ("Инструмент '" ++ "foo" ++ "' не найден") :=
  ⟨(c6_not_found_dispatch calcToolKit "foo" "1+1" rfl).1,
   (c6_not_found_dispatch calcToolKit "foo" "1+1" rfl).2.2⟩

/-- **C8** (counterexample): `describe` renders the single registered tool as
`• calculator("expression"): Вычисления` — the line is prefixed with a bullet
(and the parameter name is double-quoted), so it is not rendered exactly as
`name(params): description`: it does not even start with the tool's name. -/
theorem c8_counterexample :
    ToolKit.describe calcToolKit = "• calculator(\"expression\"): Вычисления"
    ∧ listStartsWith "calculator".data
        (ToolKit.describe calcToolKit).data = false := by
  exact ⟨rfl, by decide⟩

/-- **C8** (amended): `describe` renders one line per registered tool, in
registration order, joined by newlines, each line being exactly
`• name("p1", "p2", …): description` with the parameter names double-quoted;
re-registration order is that of the underlying dict (insertion order). -/
theorem c8_describe_rendering (tk : ToolKit) (a b : Tool)
    (hab : a.name ≠ b.name) :
    ToolKit.describe tk = pyJoin "\n" (tk.tools.map toolLine)
    ∧ toolLine a
      = "• " ++ a.name ++ "(" ++
          pyJoin ", " (a.parameters.map (fun k => "\"" ++ k ++ "\"")) ++ "): " ++
          a.description
    ∧ ToolKit.describe (ToolKit.register (ToolKit.register ⟨[]⟩ a) b)
      = toolLine a ++ "\n" ++ toolLine b := by
  refine ⟨?_, rfl, ?_⟩
  · unfold ToolKit.describe
    rw [describe_lines]
    rfl
  · have hne : (a.name == b.name) = false := beq_eq_false_iff_ne.mpr hab
    simp [ToolKit.register, ToolKit.describe, hne, pyJoin]

/-- Witness for C8 with two concrete, distinct tools. -/
theorem c8_describe_rendering_witness :
    ToolKit.describe
        (ToolKit.register
          (ToolKit.register ⟨[]⟩ ⟨"calculator", "Вычисления", fun s => .ok s, ["expression"]⟩)
          ⟨"wikipedia", "Поиск Wikipedia", fun s => .ok s, ["query"]⟩)
      = toolLine ⟨"calculator", "Вычисления", fun s => .ok s, ["expression"]⟩ ++ "\n" ++
        toolLine ⟨"wikipedia", "Поиск Wikipedia", fun s => .ok s, ["query"]⟩ :=
  (c8_describe_rendering ⟨[]⟩
    ⟨"calculator", "Вычисления", fun s => .ok s, ["expression"]⟩
    ⟨"wikipedia", "Поиск Wikipedia", fun s => .ok s, ["query"]⟩ (by decide)).2.2

/-- Python `str.strip()` of an all-whitespace string is empty. -/
theorem pyStrip_all_space {s : String}
    (h : ∀ c ∈ s.data, pyIsSpace c = true) : pyStrip s = "" := by
  unfold pyStrip
  rw [stripWhile_eq_nil_of_all h]

/-- A registry with the demo `echo`-style tool (one declared parameter). -/
def echoToolKit : ToolKit := ⟨[⟨"echo", "эхо", fun s => .ok s, ["text"]⟩]⟩

/-- A response containing both an `ANSWER:` marker (followed by whitespace
only) and a parseable `ACTION:` pattern. -/
def bothMarkersResponse : String := "ACTION: echo(\"hi\")\nANSWER: "

/-- **C2** (counterexample): the response contains both the `ANSWER:` marker
and an `ACTION:` pattern, yet because the text after the last `ANSWER:` strips
to the empty (falsy) string, the iteration is *not* resolved as a terminal
answer: the run dispatches the tool (the actions log records it) and ends in
exhaustion with `success = false`, contradicting the claim. -/
theorem c2_counterexample :
    (_extract_answer bothMarkersResponse).isSome = true
    ∧ _parse_action bothMarkersResponse = some ⟨"echo", "hi"⟩
    ∧ ReAct.run echoToolKit (fun _ => bothMarkersResponse) 1 "задача"
        = .ok ⟨ReAct.sentinel, 1, [⟨1, "echo", "hi", "hi"⟩], false⟩ := by
  exact ⟨by decide, by decide, rfl⟩

/-- **C2** (amended): answer detection still strictly precedes action
detection; whenever the extracted answer is *non-empty* (truthy), the
iteration returns the terminal `RunResult` with `success = true` and
dispatches no tool (the actions log is returned unchanged) — even if the
response also contains a parseable `ACTION:` pattern. -/
theorem c2_answer_precedence (tk : ToolKit) (llm : List Msg → String)
    (maxIter iter fuel : Nat) (msgs : List Msg) (log : List IterRec)
    (a : String)
    (hans : _extract_answer (llm msgs) = some a) (hne : a ≠ "")
    (_hact : (_parse_action (llm msgs)).isSome = true) :
    ReAct.runAux tk llm maxIter iter (fuel + 1) msgs log
      = .ok ⟨a, iter, log, true⟩ := by
  have htr : answerTruthy (llm msgs) = true := by
    simp [answerTruthy, hans, hne]
  have hval : answerValue (llm msgs) = a := by
    simp [answerValue, hans]
  simp [ReAct.runAux, htr, hval]

/-- A response with both markers and a non-empty answer text. -/
def answerWinsResponse : String := "ACTION: echo(\"hi\")\nANSWER: done"

/-- Witness for C2 (amended) at a concrete both-marker response. -/
theorem c2_answer_precedence_witness :
    ReAct.runAux echoToolKit (fun _ => answerWinsResponse) 5 1 5 [] []
      = .ok ⟨"done", 1, [], true⟩ :=
  c2_answer_precedence echoToolKit (fun _ => answerWinsResponse) 5 1 4 [] []
    "done" (by decide) (by decide) (by decide)

/-- **C9** (confirmed): when the text after the last `ANSWER:` marker is
whitespace only, `_extract_answer` returns the empty string, the truthiness
check treats the response as answerless, and the iteration falls through to
action parsing (dispatch) or the corrective nudge instead of terminating. -/
theorem c9_whitespace_answer_falls_through (r : String) (w : List Char)
    (hlast : lastRest answerMarker r.data = some w)
    (hw : ∀ c ∈ w, pyIsSpace c = true) :
    _extract_answer r = some ""
    ∧ answerTruthy r = false
    ∧ ∀ (tk : ToolKit) (llm : List Msg → String) (maxIter iter fuel : Nat)
        (msgs : List Msg) (log : List IterRec), llm msgs = r →
        ReAct.runAux tk llm maxIter iter (fuel + 1) msgs log =
          (match _parse_action r with
           | some a =>
             (match ReAct.toolkitExecute tk a.tool a.arg with
              | .error e => .error e
              | .ok obs =>
                ReAct.runAux tk llm maxIter (iter + 1) fuel
                  (msgs ++ [⟨"assistant", r⟩, ⟨"user", "OBSERVATION: " ++ obs⟩])
                  (log ++ [⟨iter, a.tool, a.arg, pyTake 500 obs⟩]))
           | none =>
             ReAct.runAux tk llm maxIter (iter + 1) fuel
               (msgs ++ [⟨"assistant", r⟩, ReAct.nudge]) log) := by
  have hex : _extract_answer r = some "" := by
    have hstrip : pyStrip (String.mk w) = "" := pyStrip_all_space (by simpa using hw)
    simp [_extract_answer, hlast, hstrip]
  have htr : answerTruthy r = false := by
    simp [answerTruthy, hex]
  refine ⟨hex, htr, ?_⟩
  intro tk llm maxIter iter fuel msgs log hllm
  simp [ReAct.runAux, hllm, htr]

/-- Witness for C9: marker followed by a space and a newline only. -/
theorem c9_whitespace_answer_falls_through_witness :
    _extract_answer "THOUGHT: думаю\nANSWER: \n" = some ""
    ∧ answerTruthy "THOUGHT: думаю\nANSWER: \n" = false :=
  ⟨(c9_whitespace_answer_falls_through "THOUGHT: думаю\nANSWER: \n" [' ', '\n']
      (by decide) (by decide)).1,
   (c9_whitespace_answer_falls_through "THOUGHT: думаю\nANSWER: \n" [' ', '\n']
      (by decide) (by decide)).2.1⟩

/-- **C4** (confirmed): an iteration of either loop that dispatches a tool
stores the result truncated to 500 characters in its log record, while the
`OBSERVATION:` message appended to the transcript (and hence sent back to the
model) carries the full untruncated result; the `research` loop additionally
stores the truncated result in `research_log.findings`. -/
theorem c4_truncated_log_full_observation
    (tk : ToolKit) (llm : List Msg → String) (maxIter iter fuel : Nat)
    (msgs : List Msg) (log : List IterRec)
    (topic : String) (rllog : List Research.RIterRec) (rlog : Research.RLog)
    (t a obs obs2 : String)
    (hans : answerTruthy (llm msgs) = false)
    (hact : _parse_action (llm msgs) = some ⟨t, a⟩)
    (hobs : ReAct.toolkitExecute tk t a = .ok obs)
    (hobs2 : Research.toolkitExecute tk t a = .ok obs2) :
    ReAct.runAux tk llm maxIter iter (fuel + 1) msgs log
      = ReAct.runAux tk llm maxIter (iter + 1) fuel
          (msgs ++ [⟨"assistant", llm msgs⟩, ⟨"user", "OBSERVATION: " ++ obs⟩])
          (log ++ [⟨iter, t, a, pyTake 500 obs⟩])
    ∧ Research.researchAux tk llm maxIter topic iter (fuel + 1) msgs rllog rlog
      = Research.researchAux tk llm maxIter topic (iter + 1) fuel
          (msgs ++ [⟨"assistant", llm msgs⟩, ⟨"user", "OBSERVATION: " ++ obs2⟩])
          (rllog ++ [⟨iter, t, a, pyTake 500 obs2⟩])
          ⟨rlog.queries ++ [a], rlog.findings ++ [pyTake 500 obs2],
           rlog.sources ++ [t ++ "(" ++ a ++ ")"]⟩ := by
  constructor
  · simp [ReAct.runAux, hans, hact, hobs]
  · simp [Research.researchAux, hans, hact, hobs2]

/-- A response carrying only an action. -/
def actionOnlyResponse : String := "ACTION: echo(\"hello\")"

/-- Witness for C4 at a concrete dispatching iteration. -/
theorem c4_truncated_log_full_observation_witness :
    ReAct.runAux echoToolKit (fun _ => actionOnlyResponse) 3 1 3 [] []
      = ReAct.runAux echoToolKit (fun _ => actionOnlyResponse) 3 2 2
          ([] ++ [⟨"assistant", actionOnlyResponse⟩,
                  ⟨"user", "OBSERVATION: " ++ "hello"⟩])
          ([] ++ [⟨1, "echo", "hello", pyTake 500 "hello"⟩]) :=
  (c4_truncated_log_full_observation echoToolKit (fun _ => actionOnlyResponse)
    3 1 2 [] [] "тема" [] ⟨[], [], []⟩ "echo" "hello" "hello" "hello"
    (by decide) (by decide) rfl rfl).1

/-- On a registry whose tools all declare parameters, `react_agent.py`'s
dispatch always returns a string. -/
theorem reAct_execute_total (tk : ToolKit)
    (hpar : ∀ t ∈ tk.tools, t.parameters ≠ []) (name arg : String) :
    ∃ s, ReAct.toolkitExecute tk name arg = .ok s := by
  cases hfind : tk.find? name with
  | none =>
    exact ⟨"Инструмент '" ++ name ++ "' не найден. Доступны: " ++
      pyJoin ", " (tk.tools.map Tool.name), by simp [ReAct.toolkitExecute, hfind]⟩
  | some t =>
    cases hp : t.parameters with
    | nil => exact absurd hp (hpar t (List.mem_of_find?_eq_some hfind))
    | cons p ps =>
      exact ⟨t.execute arg, by simp [ReAct.toolkitExecute, hfind, hp]⟩

/-- Exhaustion lemma: if no response is ever truthy as an answer and every
registered tool declares parameters, every tail of the loop ends in the
sentinel failure result. -/
theorem runAux_exhausts (tk : ToolKit) (llm : List Msg → String) (maxIter : Nat)
    (hans : ∀ msgs, answerTruthy (llm msgs) = false)
    (hpar : ∀ t ∈ tk.tools, t.parameters ≠ []) :
    ∀ fuel iter msgs log, ∃ log2,
      ReAct.runAux tk llm maxIter iter fuel msgs log
        = .ok ⟨ReAct.sentinel, maxIter, log2, false⟩ := by
  intro fuel
  induction fuel with
  | zero => exact fun iter msgs log => ⟨log, rfl⟩
  | succ fuel ih =>
    intro iter msgs log
    cases hp : _parse_action (llm msgs) with
    | none =>
      obtain ⟨log2, h2⟩ :=
        ih (iter + 1) (msgs ++ [⟨"assistant", llm msgs⟩, ReAct.nudge]) log
      exact ⟨log2, by simp [ReAct.runAux, hans msgs, hp, h2]⟩
    | some a =>
      obtain ⟨s, hs⟩ := reAct_execute_total tk hpar a.tool a.arg
      obtain ⟨log2, h2⟩ :=
        ih (iter + 1)
          (msgs ++ [⟨"assistant", llm msgs⟩, ⟨"user", "OBSERVATION: " ++ s⟩])
          (log ++ [⟨iter, a.tool, a.arg, pyTake 500 s⟩])
      exact ⟨log2, by simp [ReAct.runAux, hans msgs, hp, hs, h2]⟩

/-- Exhaustion lemma, no-action case: the log additionally never grows. -/
theorem runAux_exhausts_no_action (tk : ToolKit) (llm : List Msg → String)
    (maxIter : Nat)
    (hans : ∀ msgs, answerTruthy (llm msgs) = false)
    (hnoact : ∀ msgs, _parse_action (llm msgs) = none) :
    ∀ fuel iter msgs log,
      ReAct.runAux tk llm maxIter iter fuel msgs log
        = .ok ⟨ReAct.sentinel, maxIter, log, false⟩ := by
  intro fuel
  induction fuel with
  | zero => exact fun iter msgs log => rfl
  | succ fuel ih =>
    intro iter msgs log
    simp [ReAct.runAux, hans msgs, hnoact msgs, ih]

/-- **C3** (confirmed): when the model call always returns (the oracle is a
total function) but no response is ever a truthy answer — on a registry whose
tools all declare at least one parameter, as every registry built in the
repository does — the run returns normally after exactly `max_iterations`
iterations with the failure sentinel, `success = false` and
`iterations = max_iterations`; if moreover no response parses as an action,
the returned actions log is empty. -/
theorem c3_iteration_exhaustion (tk : ToolKit) (llm : List Msg → String)
    (maxIter : Nat) (task : String)
    (hans : ∀ msgs, answerTruthy (llm msgs) = false)
    (hpar : ∀ t ∈ tk.tools, t.parameters ≠ []) :
    (∃ log, ReAct.run tk llm maxIter task
      = .ok ⟨ReAct.sentinel, maxIter, log, false⟩)
    ∧ ((∀ msgs, _parse_action (llm msgs) = none) →
        ReAct.run tk llm maxIter task
          = .ok ⟨ReAct.sentinel, maxIter, [], false⟩) := by
  constructor
  · exact runAux_exhausts tk llm maxIter hans hpar maxIter 1 _ []
  · intro hnoact
    exact runAux_exhausts_no_action tk llm maxIter hans hnoact maxIter 1 _ []

/-- Witness for C3: a model that always emits unparseable text. -/
theorem c3_iteration_exhaustion_witness :
    ReAct.run echoToolKit (fun _ => "размышляю...") 2 "задача"
      = .ok ⟨ReAct.sentinel, 2, [], false⟩ :=
  (c3_iteration_exhaustion echoToolKit (fun _ => "размышляю...") 2 "задача"
    (fun _ => show answerTruthy "размышляю..." = false by decide)
    (by
      intro t ht
      simp only [echoToolKit] at ht
      rw [List.mem_singleton] at ht
      subst ht
      decide)).2
    (fun _ => show _parse_action "размышляю..." = none by decide)

end Agent
